import Mathlib

/-!
Shallow embedding of the training pipeline in `src/python/training_pipeline.py`
(the DINOv3 few-shot demo trainer).  Pixel values, soft labels and the
normalisation constants are modelled as exact rationals (`ℚ`); Python float
true-division `a / b` followed by `int(...)` is modelled as exact rational
division followed by truncation toward zero (`pyInt`), which agrees with the
Python computation whenever the IEEE-double quotient is exact, and none of the
properties proved below depend on double rounding.  External library calls
(PIL resize, torchvision resize, the ONNX feature extractor) are abstracted as
function parameters; everything the source computes itself is translated
directly.
-/

/-- `PATCH_SIZE = 16` (source constant). -/
def PATCH_SIZE : ℕ := 16

/-- `IMAGE_SIZE = 768` (source constant). -/
def IMAGE_SIZE : ℕ := 768

/-- `IMAGENET_MEAN = (0.485, 0.456, 0.406)` (source constant), as a function
from the channel index. -/
def IMAGENET_MEAN : ℕ → ℚ
  | 0 => 0.485
  | 1 => 0.456
  | 2 => 0.406
  | _ => 0

/-- `IMAGENET_STD = (0.229, 0.224, 0.225)` (source constant), as a function
from the channel index. -/
def IMAGENET_STD : ℕ → ℚ
  | 0 => 0.229
  | 1 => 0.224
  | 2 => 0.225
  | _ => 0

/-- Python `int(q)` on a real number: truncation toward zero. -/
def pyInt (q : ℚ) : ℤ :=
  if 0 ≤ q then ⌊q⌋ else -⌊-q⌋

/-- Python `int(a / b)` for nonnegative integers `a`, `b` (float true-division
then truncation), modelled exactly over `ℚ`. -/
def pyIntDiv (a b : ℕ) : ℕ :=
  (pyInt ((a : ℚ) / (b : ℚ))).toNat

/-- The patch grid `(h_patches, w_patches)` computed by `preprocess_image`:
`h_patches = image_size // patch_size`, `w_patches = int((w * image_size) / (h * patch_size))`. -/
def preprocess_grid (image_size patch_size w h : ℕ) : ℕ × ℕ :=
  (image_size / patch_size, pyIntDiv (w * image_size) (h * patch_size))

/-- The patch grid `(h_patches, w_patches)` computed by `resize_mask`:
`h_patches = int(image_size / patch_size)`, `w_patches = int((w * image_size) / (h * patch_size))`. -/
def resize_mask_grid (image_size patch_size w h : ℕ) : ℕ × ℕ :=
  (pyIntDiv image_size patch_size, pyIntDiv (w * image_size) (h * patch_size))

/-- `target_size = (h_patches * patch_size, w_patches * patch_size)` as computed
inside `preprocess_image` (height, width order). -/
def preprocess_target_size (image_size patch_size w h : ℕ) : ℕ × ℕ :=
  ((preprocess_grid image_size patch_size w h).1 * patch_size,
   (preprocess_grid image_size patch_size w h).2 * patch_size)

/-- `target_size = (h_patches * patch_size, w_patches * patch_size)` as computed
inside `resize_mask` (height, width order). -/
def resize_mask_target_size (image_size patch_size w h : ℕ) : ℕ × ℕ :=
  ((resize_mask_grid image_size patch_size w h).1 * patch_size,
   (resize_mask_grid image_size patch_size w h).2 * patch_size)

/-- An RGB raster: original dimensions plus pixel access `px y x c ∈ [0,255]`. -/
structure RGBImage where
  width : ℕ
  height : ℕ
  px : ℕ → ℕ → ℕ → ℚ

/-- A single-channel (mask / alpha) raster. -/
structure MaskImage where
  width : ℕ
  height : ℕ
  px : ℕ → ℕ → ℚ

/-- A rank-4 tensor, modelled as its shape together with total value access. -/
structure Tensor4 where
  dim0 : ℕ
  dim1 : ℕ
  dim2 : ℕ
  dim3 : ℕ
  val : ℕ → ℕ → ℕ → ℕ → ℚ

/-- Model of `preprocess_image`: compute the patch grid, resize the image to
`(w_patches*P, h_patches*P)` (PIL takes width, height — the resize itself is
the external bicubic call, abstracted as `resize img W H`), scale to `[0,1]`,
normalise per channel, transpose `(2,0,1)` and add a leading batch dimension. -/
def preprocess_image (image_size patch_size : ℕ)
    (resize : RGBImage → ℕ → ℕ → (ℕ → ℕ → ℕ → ℚ)) (img : RGBImage) : Tensor4 :=
  let g := preprocess_grid image_size patch_size img.width img.height
  let resized := resize img (g.2 * patch_size) (g.1 * patch_size)
  let scaled := fun (y x c : ℕ) => resized y x c / 255
  let normalized := fun (y x c : ℕ) => (scaled y x c - IMAGENET_MEAN c) / IMAGENET_STD c
  { dim0 := 1, dim1 := 3, dim2 := g.1 * patch_size, dim3 := g.2 * patch_size,
    val := fun _ c y x => normalized y x c }

/-- Model of `resize_mask`: compute the patch grid and resize the mask to
`(h_patches*P, w_patches*P)` (torchvision takes height, width; the
interpolating resize plus `to_tensor` scaling is the external call, abstracted
as `tfResize mask H W`, yielding a raster with values in `[0,1]`). -/
def resize_mask (image_size patch_size : ℕ)
    (tfResize : MaskImage → ℕ → ℕ → (ℕ → ℕ → ℚ)) (mask : MaskImage) : ℕ → ℕ → ℚ :=
  let g := resize_mask_grid image_size patch_size mask.width mask.height
  tfResize mask (g.1 * patch_size) (g.2 * patch_size)

/-- Model of `patch_quant_filter` applied to a `(rows*P, cols*P)` raster and
flattened with `.view(-1)`: a `Conv2d(1, 1, P, stride=P, bias=False)` whose
weights are all `1/P²`.  Output position `(i, j)` sums the `P×P` window at
`(i*P, j*P)` with weight `1/P²`; the rows are emitted in row-major order. -/
def patch_quant (P rows cols : ℕ) (mask : ℕ → ℕ → ℚ) : List ℚ :=
  (List.range rows).flatMap (fun i =>
    (List.range cols).map (fun j =>
      ∑ dy ∈ Finset.range P, ∑ dx ∈ Finset.range P,
        mask (i * P + dy) (j * P + dx) * (1 / ((P : ℚ) * (P : ℚ)))))

/-- The Clean-Subset predicate from `idx = (ys < 0.01) | (ys > 0.99)`. -/
def clean_pred (y : ℚ) : Bool :=
  y < 0.01 || y > 0.99

/-- Numpy boolean-mask selection `xs[idx]`: keep the entries whose flag is
`true` (the source always calls it with `keep.length = xs.length`). -/
def mask_select {α : Type} (xs : List α) (keep : List Bool) : List α :=
  ((xs.zip keep).filter (fun p => p.2)).map (fun p => p.1)

/-- The label binarization actually used by the fit call:
`(ys_clean > 0).astype(int)`. -/
def binarize (y : ℚ) : ℕ :=
  if 0 < y then 1 else 0

/-- Modelled from the spec: the binarization the spec's Classifier Trainer
contract prescribes, `label > 0.5` (the source is not this; compare
`binarize`). -/
def binarize_spec (y : ℚ) : ℕ :=
  if 1/2 < y then 1 else 0

/-- One image of the training batch as the op sees it: the PIL mode string
(only `"RGBA"` is accepted), the original dimensions, the RGB plane
(`img.convert("RGB")`) and the alpha plane (`img.split()[-1]`). -/
structure InputImage where
  mode : String
  width : ℕ
  height : ℕ
  rgb : ℕ → ℕ → ℕ → ℚ
  alpha : ℕ → ℕ → ℚ

/-- `img.convert("RGB")`. -/
def InputImage.toRGB (img : InputImage) : RGBImage :=
  { width := img.width, height := img.height, px := img.rgb }

/-- `img.split()[-1]`: the alpha channel as a single-channel image of the same
dimensions. -/
def InputImage.alphaMask (img : InputImage) : MaskImage :=
  { width := img.width, height := img.height, px := img.alpha }

/-- `mask_quantized` for one image: `resize_mask` followed by the
`patch_quant_filter` convolution and row-major flattening.  The convolution of
a `(rows*P, cols*P)` input with kernel `P` and stride `P` produces `rows*cols`
outputs. -/
def image_soft_labels (image_size patch_size : ℕ)
    (tfResize : MaskImage → ℕ → ℕ → (ℕ → ℕ → ℚ)) (img : InputImage) : List ℚ :=
  let g := resize_mask_grid image_size patch_size img.width img.height
  patch_quant patch_size g.1 g.2
    (resize_mask image_size patch_size tfResize img.alphaMask)

/-- `feats` for one image: the external ONNX feature extractor applied to the
preprocessed tensor, with the batch dimension squeezed away — modelled as
`extract : Tensor4 → List (List ℚ)` returning the per-patch embedding rows. -/
def image_feats (image_size patch_size : ℕ)
    (resize : RGBImage → ℕ → ℕ → (ℕ → ℕ → ℕ → ℚ))
    (extract : Tensor4 → List (List ℚ)) (img : InputImage) : List (List ℚ) :=
  extract (preprocess_image image_size patch_size resize img.toRGB)

/-- The per-image loop of `train_classifier_op`: skip non-RGBA images with
`continue`, otherwise append the image's embedding rows to `xs` and its
quantized soft labels to `ys` (one list entry per accepted image, in arrival
order, exactly like the Python lists before `np.concatenate`). -/
def aligner (image_size patch_size : ℕ)
    (resize : RGBImage → ℕ → ℕ → (ℕ → ℕ → ℕ → ℚ))
    (extract : Tensor4 → List (List ℚ))
    (tfResize : MaskImage → ℕ → ℕ → (ℕ → ℕ → ℚ)) :
    List InputImage → List (List (List ℚ)) × List (List ℚ)
  | [] => ([], [])
  | img :: rest =>
    if img.mode ≠ "RGBA" then
      aligner image_size patch_size resize extract tfResize rest
    else
      let t := aligner image_size patch_size resize extract tfResize rest
      (image_feats image_size patch_size resize extract img :: t.1,
       image_soft_labels image_size patch_size tfResize img :: t.2)

/-- The concatenated-and-filtered tables
`(xs_clean, ys_clean)` of the op: `xs = np.concatenate(xs)`,
`ys = np.concatenate(ys)`, `idx = (ys < 0.01) | (ys > 0.99)`,
`xs_clean = xs[idx]`, `ys_clean = ys[idx]`. -/
def run_clean (image_size patch_size : ℕ)
    (resize : RGBImage → ℕ → ℕ → (ℕ → ℕ → ℕ → ℚ))
    (extract : Tensor4 → List (List ℚ))
    (tfResize : MaskImage → ℕ → ℕ → (ℕ → ℕ → ℚ))
    (imgs : List InputImage) : List (List ℚ) × List ℚ :=
  let t := aligner image_size patch_size resize extract tfResize imgs
  let xs := t.1.flatten
  let ys := t.2.flatten
  let keep := ys.map clean_pred
  (mask_select xs keep, mask_select ys keep)

/-- The named input declaration of the exported ONNX graph
(`FloatTensorType`, `none` = a dynamic dimension). -/
structure TensorDecl where
  name : String
  elemType : String
  dims : List (Option ℕ)
deriving DecidableEq

/-- The observable interface of the graph produced by `to_onnx`: the declared
inputs, the `zipmap` option and the target opset. -/
structure OnnxModel where
  feature_dim : ℕ
  inputs : List TensorDecl
  zipmap : Bool
  opset : ℕ
deriving DecidableEq

/-- The exceptions the op body can raise, plus the error name the spec
prescribes.  `insufficientTrainingData` is modelled from the spec (§4.3/§7
name `InsufficientTrainingData`); the source defines no such error, so it can
appear here only to be compared against what the code actually raises.
`valueErrorConcatEmpty` is the `ValueError` of `np.concatenate` on an empty
list; `valueErrorFitNoSamples` is the `ValueError` of `sklearn` `fit` on a
0-sample matrix; `valueErrorFitOneLabel` is the `ValueError` of
`LogisticRegression.fit` when fewer than two classes are present. -/
inductive TrainError where
  | insufficientTrainingData
  | valueErrorConcatEmpty
  | valueErrorFitNoSamples
  | valueErrorFitOneLabel
deriving DecidableEq

/-- The body of `train_classifier_op` inside the `try` block, from the
per-image loop to the `to_onnx` export, with the outcome of each fallible
library call modelled explicitly.  The fitted coefficients of the logistic
regression are produced by an iterative solver and are not modelled; the
model records the fit's input validation and the exported graph's declared
interface, which is all the claims refer to. -/
def train_classifier_core (image_size patch_size : ℕ)
    (resize : RGBImage → ℕ → ℕ → (ℕ → ℕ → ℕ → ℚ))
    (extract : Tensor4 → List (List ℚ))
    (tfResize : MaskImage → ℕ → ℕ → (ℕ → ℕ → ℚ))
    (imgs : List InputImage) : Except TrainError OnnxModel :=
  if (aligner image_size patch_size resize extract tfResize imgs).1.isEmpty then
    Except.error TrainError.valueErrorConcatEmpty
  else if (aligner image_size patch_size resize extract tfResize imgs).2.isEmpty then
    Except.error TrainError.valueErrorConcatEmpty
  else if (run_clean image_size patch_size resize extract tfResize imgs).1.isEmpty then
    Except.error TrainError.valueErrorFitNoSamples
  else if (((run_clean image_size patch_size resize extract tfResize imgs).2.map
      binarize).dedup).length < 2 then
    Except.error TrainError.valueErrorFitOneLabel
  else
    Except.ok
      { feature_dim :=
          ((run_clean image_size patch_size resize extract tfResize imgs).1.headD []).length,
        inputs := [{ name := "patch_features", elemType := "float",
                     dims := [none, some (((run_clean image_size patch_size resize extract
                       tfResize imgs).1.headD []).length)] }],
        zipmap := false, opset := 17 }

/-- The PocketBase status updates the op issues (`setReady` carries the
uploaded classifier artifact). -/
inductive PBUpdate where
  | setTraining
  | setReady (artifact : OnnxModel)
  | setFailed
deriving DecidableEq

/-- The op's status handling around the `try`/`except`: the record is set to
`training` before the body runs; on success the single update to `ready`
(with the artifact upload) follows the successful export; on any exception the
record is set to `failed` and the same exception is re-raised. -/
def train_classifier_op (body : Except TrainError OnnxModel) :
    List PBUpdate × Except TrainError OnnxModel :=
  match body with
  | Except.ok m => ([PBUpdate.setTraining, PBUpdate.setReady m], Except.ok m)
  | Except.error e => ([PBUpdate.setTraining, PBUpdate.setFailed], Except.error e)

/-- The full op as the job runs it, with the source's constant
`IMAGE_SIZE = 768`, `PATCH_SIZE = 16` defaults. -/
def train_classifier_op_run
    (resize : RGBImage → ℕ → ℕ → (ℕ → ℕ → ℕ → ℚ))
    (extract : Tensor4 → List (List ℚ))
    (tfResize : MaskImage → ℕ → ℕ → (ℕ → ℕ → ℚ))
    (imgs : List InputImage) : List PBUpdate × Except TrainError OnnxModel :=
  train_classifier_op
    (train_classifier_core IMAGE_SIZE PATCH_SIZE resize extract tfResize imgs)

/-- Patch count of one image under the `preprocess_image` grid. -/
def numPatches (image_size patch_size : ℕ) (img : InputImage) : ℕ :=
  (preprocess_grid image_size patch_size img.width img.height).1 *
    (preprocess_grid image_size patch_size img.width img.height).2

/-- Cumulative patch count over the accepted (RGBA) images of a batch. -/
def cumPatches (image_size patch_size : ℕ) (imgs : List InputImage) : ℕ :=
  ((imgs.filter (fun i => i.mode = "RGBA")).map (numPatches image_size patch_size)).sum

/-- A trivial stand-in for the external PIL resize (used to instantiate
theorems at concrete inputs). -/
def zeroResize : RGBImage → ℕ → ℕ → (ℕ → ℕ → ℕ → ℚ) := fun _ _ _ _ _ _ => 0

/-- A trivial stand-in for the external feature extractor. -/
def zeroExtract : Tensor4 → List (List ℚ) := fun _ => []

/-- A trivial stand-in for the external torchvision mask resize. -/
def zeroMaskResize : MaskImage → ℕ → ℕ → (ℕ → ℕ → ℚ) := fun _ _ _ _ _ => 0

/-- A feature extractor satisfying the shape contract for `patch_size = 1`:
one embedding row per pixel of the input tensor. -/
def shapeExtract : Tensor4 → List (List ℚ) := fun t => List.replicate (t.dim2 * t.dim3) [5]

/-- A mask resize whose output is 0 in column 0 and 1 elsewhere. -/
def stepMaskResize : MaskImage → ℕ → ℕ → (ℕ → ℕ → ℚ) :=
  fun _ _ _ _ x => if x = 0 then 0 else 1

/-- A concrete 2×1 RGBA input image. -/
def img2 : InputImage :=
  { mode := "RGBA", width := 2, height := 1, rgb := fun _ _ _ => 0, alpha := fun _ _ => 0 }

/-- A concrete non-RGBA input image. -/
def badImg : InputImage :=
  { mode := "RGB", width := 2, height := 1, rgb := fun _ _ _ => 0, alpha := fun _ _ => 0 }

/-- The ONNX interface record produced by a small successful demo run. -/
def demoModel : OnnxModel :=
  { feature_dim := 1,
    inputs := [{ name := "patch_features", elemType := "float", dims := [none, some 1] }],
    zipmap := false, opset := 17 }

/-! ### Helper lemmas -/

/-- Python `int(a / b)` on naturals agrees with floor division. -/
theorem pyIntDiv_eq_div (a b : ℕ) : pyIntDiv a b = a / b := by
  unfold pyIntDiv pyInt
  rw [if_pos (div_nonneg (Nat.cast_nonneg a) (Nat.cast_nonneg b)),
    Int.floor_toNat, Nat.floor_div_nat, Nat.floor_natCast]

/-- Selecting a list by the boolean mask obtained from mapping a predicate
over the list itself is filtering by that predicate. -/
theorem mask_select_map_self {α : Type} (f : α → Bool) (l : List α) :
    mask_select l (l.map f) = l.filter f := by
  induction l with
  | nil => rfl
  | cons a l ih =>
    simp only [mask_select, List.map_cons, List.zip_cons_cons, List.filter_cons] at ih ⊢
    by_cases h : f a
    · simp [h, ih]
    · simp [h, ih]

/-- Every pair of `l.zip (l.map f)` relates an element to its image. -/
theorem snd_eq_of_mem_zip_map {α β : Type} (f : α → β) (l : List α) :
    ∀ p : α × β, p ∈ l.zip (l.map f) → p.2 = f p.1 := by
  induction l with
  | nil => intro p hp; simp at hp
  | cons a l ih =>
    intro p hp
    simp only [List.map_cons, List.zip_cons_cons, List.mem_cons] at hp
    rcases hp with h | h
    · subst h; rfl
    · exact ih p h

/-- The quantizer emits one scalar per patch. -/
theorem patch_quant_length (P rows cols : ℕ) (mask : ℕ → ℕ → ℚ) :
    (patch_quant P rows cols mask).length = rows * cols := by
  unfold patch_quant
  rw [List.length_flatMap]
  simp only [Function.comp_def, List.length_map, List.length_range]
  simp [List.map_const', List.sum_const_nat]

/-- One image contributes exactly its patch-grid size in soft labels. -/
theorem image_soft_labels_length (image_size patch_size : ℕ)
    (tfResize : MaskImage → ℕ → ℕ → (ℕ → ℕ → ℚ)) (img : InputImage) :
    (image_soft_labels image_size patch_size tfResize img).length =
      numPatches image_size patch_size img := by
  unfold image_soft_labels numPatches
  rw [patch_quant_length]
  unfold resize_mask_grid preprocess_grid
  simp [pyIntDiv_eq_div]

/-- Indexing the row-major flattening of equal-length blocks. -/
theorem getD_flatten_blocks (c : ℕ) (blocks : List (List ℚ)) :
    ∀ (i j : ℕ), (∀ b ∈ blocks, b.length = c) →
      i < blocks.length → j < c →
      blocks.flatten.getD (i * c + j) 0 = (blocks.getD i []).getD j 0 := by
  induction blocks with
  | nil => intro i j _ hi _; simp at hi
  | cons b bs ih =>
    intro i j hb hi hj
    have hbl : b.length = c := hb b (List.mem_cons_self b bs)
    match i with
    | 0 =>
      rw [zero_mul, zero_add, List.flatten_cons,
        List.getD_append _ _ _ _ (by rw [hbl]; exact hj)]
      rfl
    | i + 1 =>
      rw [List.flatten_cons]
      have harith : (i + 1) * c + j = b.length + (i * c + j) := by
        rw [hbl]; ring
      rw [harith, List.getD_append_right _ _ _ _ (Nat.le_add_right _ _),
        Nat.add_sub_cancel_left]
      exact ih i j (fun b' hb' => hb b' (List.mem_cons_of_mem _ hb'))
        (Nat.lt_of_succ_lt_succ hi) hj

/-- The quantizer's entry at row-major position `(i, j)` is the convolution
output of patch `(i, j)`. -/
theorem patch_quant_getD (P rows cols : ℕ) (mask : ℕ → ℕ → ℚ) (i j : ℕ)
    (hi : i < rows) (hj : j < cols) :
    (patch_quant P rows cols mask).getD (i * cols + j) 0 =
      ∑ dy ∈ Finset.range P, ∑ dx ∈ Finset.range P,
        mask (i * P + dy) (j * P + dx) * (1 / ((P : ℚ) * (P : ℚ))) := by
  unfold patch_quant
  rw [List.flatMap_def]
  rw [getD_flatten_blocks cols _ i j ?_ ?_ hj]
  · simp [List.getD_eq_getElem?_getD, List.getElem?_map, List.getElem?_range, hi, hj]
  · intro b hb
    simp only [List.mem_map] at hb
    obtain ⟨a, _, rfl⟩ := hb
    simp
  · simpa using hi

/-- The per-image loop appends exactly one table entry per accepted image. -/
theorem aligner_lengths (image_size patch_size : ℕ)
    (resize : RGBImage → ℕ → ℕ → (ℕ → ℕ → ℕ → ℚ))
    (extract : Tensor4 → List (List ℚ))
    (tfResize : MaskImage → ℕ → ℕ → (ℕ → ℕ → ℚ)) (imgs : List InputImage) :
    (aligner image_size patch_size resize extract tfResize imgs).1.length =
      (imgs.filter (fun i => i.mode = "RGBA")).length ∧
    (aligner image_size patch_size resize extract tfResize imgs).2.length =
      (imgs.filter (fun i => i.mode = "RGBA")).length := by
  induction imgs with
  | nil => exact ⟨rfl, rfl⟩
  | cons img rest ih =>
    by_cases h : img.mode = "RGBA"
    · simp [aligner, h, List.filter_cons, ih.1, ih.2]
    · simp [aligner, h, List.filter_cons, ih.1, ih.2]

/-! ### Claim theorems -/

/-- C1 (corrected): the label the trainer fits on is the Clean-Subset soft
label binarized as `label > 0` — class 1 exactly when the label is positive and
class 0 exactly when it is ≤ 0; in particular a Clean-Subset label strictly
between 0 and 0.01 passes the clean filter and is assigned class 1 (not
class 0 as the original claim's `label > 0.5` binarization would give). -/
theorem C1_labels_binarized_positive (ys : List ℚ) :
    (∀ p : ℚ × ℕ,
        p ∈ (mask_select ys (ys.map clean_pred)).zip
            ((mask_select ys (ys.map clean_pred)).map binarize) →
          (p.2 = 1 ↔ 0 < p.1) ∧ (p.2 = 0 ↔ p.1 ≤ 0)) ∧
    (∀ y : ℚ, 0 < y → y < 0.01 → clean_pred y = true ∧ binarize y = 1) := by
  constructor
  · intro p hp
    have h2 := snd_eq_of_mem_zip_map binarize _ p hp
    rw [h2]
    unfold binarize
    by_cases h : 0 < p.1
    · simp [h, not_le.mpr h]
    · simp [h]
      push_neg at h
      exact h
  · intro y h0 h1
    constructor
    · simp only [clean_pred, Bool.or_eq_true, decide_eq_true_eq]
      left; linarith [show (0.01 : ℚ) = 1/100 by norm_num]
    · simp [binarize, h0]

/-- C1 counterexample: the soft label 1/200 lies in the Clean Subset and is
at most 0.5, yet the code's binarization `(ys_clean > 0)` labels it class 1
while the claimed binarization `label > 0.5` (`binarize_spec`) labels it
class 0. -/
theorem C1_counterexample :
    (mask_select [(1:ℚ)/200] (([(1:ℚ)/200]).map clean_pred)).map binarize = [1] ∧
    (mask_select [(1:ℚ)/200] (([(1:ℚ)/200]).map clean_pred)).map binarize_spec = [0] ∧
    ((1:ℚ)/200 ≤ 1/2) := by
  norm_num [mask_select, clean_pred, binarize, binarize_spec]

/-- C1 witness: a concrete Clean-Subset label strictly between 0 and 0.01 is
kept by the filter and assigned class 1. -/
theorem C1_witness : clean_pred ((1:ℚ)/200) = true ∧ binarize ((1:ℚ)/200) = 1 :=
  (C1_labels_binarized_positive []).2 ((1:ℚ)/200) (by norm_num) (by norm_num)

/-- C2 (corrected): with zero accepted images the run fails before any
classifier is fit with the generic `ValueError` of `np.concatenate` on an
empty list, and with a non-empty batch but an empty Clean Subset it fails with
the generic `ValueError` of `sklearn` `fit` on zero samples; no error named
`InsufficientTrainingData` exists or is raised, and no successful run has an
empty Clean Subset. -/
theorem C2_no_data_behavior (image_size patch_size : ℕ)
    (resize : RGBImage → ℕ → ℕ → (ℕ → ℕ → ℕ → ℚ))
    (extract : Tensor4 → List (List ℚ))
    (tfResize : MaskImage → ℕ → ℕ → (ℕ → ℕ → ℚ)) (imgs : List InputImage) :
    (imgs.filter (fun i => i.mode = "RGBA") = [] →
        train_classifier_core image_size patch_size resize extract tfResize imgs =
          Except.error TrainError.valueErrorConcatEmpty) ∧
    (imgs.filter (fun i => i.mode = "RGBA") ≠ [] →
      (run_clean image_size patch_size resize extract tfResize imgs).1 = [] →
        train_classifier_core image_size patch_size resize extract tfResize imgs =
          Except.error TrainError.valueErrorFitNoSamples) ∧
    (∀ e, train_classifier_core image_size patch_size resize extract tfResize imgs =
        Except.error e → e ≠ TrainError.insufficientTrainingData) ∧
    (∀ m, train_classifier_core image_size patch_size resize extract tfResize imgs =
        Except.ok m →
        (run_clean image_size patch_size resize extract tfResize imgs).1 ≠ []) := by
  have hlen := aligner_lengths image_size patch_size resize extract tfResize imgs
  refine ⟨?_, ?_, ?_, ?_⟩
  · intro hempty
    have h1 : (aligner image_size patch_size resize extract tfResize imgs).1 = [] := by
      rw [← List.length_eq_zero, hlen.1, hempty]
      rfl
    unfold train_classifier_core
    rw [h1]
    simp
  · intro hne hclean
    have h1 : (aligner image_size patch_size resize extract tfResize imgs).1.isEmpty = false := by
      rw [List.isEmpty_eq_false]
      intro hnil
      apply hne
      rw [← List.length_eq_zero, ← hlen.1, hnil]
      rfl
    have h2 : (aligner image_size patch_size resize extract tfResize imgs).2.isEmpty = false := by
      rw [List.isEmpty_eq_false]
      intro hnil
      apply hne
      rw [← List.length_eq_zero, ← hlen.2, hnil]
      rfl
    unfold train_classifier_core
    rw [h1, h2, hclean]
    simp
  · intro e he
    unfold train_classifier_core at he
    split_ifs at he <;> cases he <;> simp
  · intro m hm
    unfold train_classifier_core at hm
    split_ifs at hm with h1 h2 h3 h4 <;> cases hm <;>
      simpa [List.isEmpty_iff] using h3

/-- C2 counterexample: on a batch with zero accepted images the pinned op
fails with the `np.concatenate` `ValueError`, which is not an
`InsufficientTrainingData` error. -/
theorem C2_counterexample :
    train_classifier_op_run zeroResize zeroExtract zeroMaskResize [] =
      ([PBUpdate.setTraining, PBUpdate.setFailed],
       Except.error TrainError.valueErrorConcatEmpty) ∧
    TrainError.valueErrorConcatEmpty ≠ TrainError.insufficientTrainingData :=
  ⟨rfl, by simp⟩

/-- C2 witness: a concrete run with zero accepted images fails with the
concatenate error before any fit. -/
theorem C2_witness :
    train_classifier_core 1 1 zeroResize zeroExtract zeroMaskResize [] =
      Except.error TrainError.valueErrorConcatEmpty :=
  (C2_no_data_behavior 1 1 zeroResize zeroExtract zeroMaskResize []).1 rfl

/-- C3: for every image with positive width and height, at the source's
`S = IMAGE_SIZE = 768`, `P = PATCH_SIZE = 16`, the patch grid computed by the
image-resize path equals the one computed by the mask-resize path, both paths
target identical pixel dimensions `(rows*P, cols*P)`, and both dimensions are
exact multiples of `P`. -/
theorem C3_grid_paths_agree (w h : ℕ) (hw : 0 < w) (hh : 0 < h) :
    preprocess_grid IMAGE_SIZE PATCH_SIZE w h = resize_mask_grid IMAGE_SIZE PATCH_SIZE w h ∧
    preprocess_target_size IMAGE_SIZE PATCH_SIZE w h =
      resize_mask_target_size IMAGE_SIZE PATCH_SIZE w h ∧
    PATCH_SIZE ∣ (preprocess_target_size IMAGE_SIZE PATCH_SIZE w h).1 ∧
    PATCH_SIZE ∣ (preprocess_target_size IMAGE_SIZE PATCH_SIZE w h).2 := by
  have hg : preprocess_grid IMAGE_SIZE PATCH_SIZE w h =
      resize_mask_grid IMAGE_SIZE PATCH_SIZE w h := by
    unfold preprocess_grid resize_mask_grid
    simp [pyIntDiv_eq_div]
  refine ⟨hg, ?_, dvd_mul_left _ _, dvd_mul_left _ _⟩
  unfold preprocess_target_size resize_mask_target_size
  rw [hg]

/-- C3 witness: the two grid paths agree at a concrete 256×256 image. -/
theorem C3_witness :
    preprocess_grid IMAGE_SIZE PATCH_SIZE 256 256 =
      resize_mask_grid IMAGE_SIZE PATCH_SIZE 256 256 :=
  (C3_grid_paths_agree 256 256 (by norm_num) (by norm_num)).1

/-- C4: the Clean Subset is exactly the index set where the soft label is
`< 0.01` or `> 0.99`; the boolean-mask selection the op performs equals
filtering by that strict predicate, the boundary values 0.01 and 0.99 are
excluded, and every label in the closed interval `[0.01, 0.99]` is
discarded. -/
theorem C4_clean_subset_strict (ys : List ℚ) :
    (∀ i : ℕ, i ∈ (List.range ys.length).filter (fun i => clean_pred (ys.getD i 0))
        ↔ i < ys.length ∧ (ys.getD i 0 < 0.01 ∨ 0.99 < ys.getD i 0)) ∧
    mask_select ys (ys.map clean_pred) = ys.filter clean_pred ∧
    clean_pred 0.01 = false ∧ clean_pred 0.99 = false ∧
    (∀ y : ℚ, 0.01 ≤ y → y ≤ 0.99 → clean_pred y = false) := by
  refine ⟨?_, mask_select_map_self clean_pred ys,
    by norm_num [clean_pred], by norm_num [clean_pred], ?_⟩
  · intro i
    simp [List.mem_filter, List.mem_range, clean_pred, and_comm]
  · intro y h1 h2
    simp only [clean_pred, Bool.or_eq_false_iff, decide_eq_false_iff_not, not_lt]
    exact ⟨h1, h2⟩

/-- C4 witness: the interior label 1/2 is discarded by the clean filter. -/
theorem C4_witness : clean_pred ((1:ℚ)/2) = false :=
  (C4_clean_subset_strict []).2.2.2.2 ((1:ℚ)/2) (by norm_num) (by norm_num)

/-- C5: the Label Quantizer emits exactly `rows*cols` scalars; the scalar at
row-major position `(i, j)` equals the arithmetic mean of the `P×P` pixels of
patch `(i, j)` (exactly, hence within any tolerance); if the mask values lie
in `[0,1]` then every output lies in `[0,1]`; and a patch uniformly 1
(respectively 0) yields exactly 1 (respectively 0). -/
theorem C5_label_quantizer (P rows cols : ℕ) (mask : ℕ → ℕ → ℚ) (hP : 0 < P) :
    (patch_quant P rows cols mask).length = rows * cols ∧
    (∀ i j : ℕ, i < rows → j < cols →
        (patch_quant P rows cols mask).getD (i * cols + j) 0 =
          (∑ dy ∈ Finset.range P, ∑ dx ∈ Finset.range P,
              mask (i * P + dy) (j * P + dx)) / ((P : ℚ) * (P : ℚ))) ∧
    ((∀ y x : ℕ, 0 ≤ mask y x ∧ mask y x ≤ 1) →
        ∀ v ∈ patch_quant P rows cols mask, 0 ≤ v ∧ v ≤ 1) ∧
    (∀ i j : ℕ, i < rows → j < cols →
        (∀ dy dx : ℕ, dy < P → dx < P → mask (i * P + dy) (j * P + dx) = 1) →
        (patch_quant P rows cols mask).getD (i * cols + j) 0 = 1) ∧
    (∀ i j : ℕ, i < rows → j < cols →
        (∀ dy dx : ℕ, dy < P → dx < P → mask (i * P + dy) (j * P + dx) = 0) →
        (patch_quant P rows cols mask).getD (i * cols + j) 0 = 0) := by
  have hPQ : ((P : ℚ) * (P : ℚ)) ≠ 0 := by
    have : (P : ℚ) ≠ 0 := Nat.cast_ne_zero.mpr hP.ne'
    exact mul_ne_zero this this
  refine ⟨patch_quant_length P rows cols mask, ?_, ?_, ?_, ?_⟩
  · intro i j hi hj
    rw [patch_quant_getD P rows cols mask i j hi hj]
    simp only [mul_one_div, Finset.sum_div]
  · intro hm v hv
    simp only [patch_quant, List.mem_flatMap, List.mem_map, List.mem_range] at hv
    obtain ⟨i, hi, j, hj, rfl⟩ := hv
    constructor
    · apply Finset.sum_nonneg
      intro dy _
      apply Finset.sum_nonneg
      intro dx _
      exact mul_nonneg (hm _ _).1 (by positivity)
    · calc (∑ dy ∈ Finset.range P, ∑ dx ∈ Finset.range P,
            mask (i * P + dy) (j * P + dx) * (1 / ((P : ℚ) * (P : ℚ))))
          ≤ ∑ dy ∈ Finset.range P, ∑ dx ∈ Finset.range P,
              1 * (1 / ((P : ℚ) * (P : ℚ))) := by
            apply Finset.sum_le_sum
            intro dy _
            apply Finset.sum_le_sum
            intro dx _
            exact mul_le_mul_of_nonneg_right (hm _ _).2 (by positivity)
      _ = 1 := by
            simp only [Finset.sum_const, Finset.card_range, nsmul_eq_mul, one_mul]
            field_simp
  · intro i j hi hj hu
    rw [patch_quant_getD P rows cols mask i j hi hj]
    rw [Finset.sum_congr rfl (fun dy hdy => Finset.sum_congr rfl
      (fun dx hdx => by
        rw [hu dy dx (Finset.mem_range.mp hdy) (Finset.mem_range.mp hdx)]))]
    simp only [Finset.sum_const, Finset.card_range, nsmul_eq_mul, one_mul]
    field_simp
  · intro i j hi hj hu
    rw [patch_quant_getD P rows cols mask i j hi hj]
    rw [Finset.sum_congr rfl (fun dy hdy => Finset.sum_congr rfl
      (fun dx hdx => by
        rw [hu dy dx (Finset.mem_range.mp hdy) (Finset.mem_range.mp hdx)]))]
    simp

/-- C5 witness: a 1×1 grid over a uniformly-1 mask quantizes to exactly 1. -/
theorem C5_witness : (patch_quant 1 1 1 (fun _ _ => 1)).getD 0 0 = 1 :=
  (C5_label_quantizer 1 1 1 (fun _ _ => 1) (by norm_num)).2.2.2.1 0 0
    (by norm_num) (by norm_num) (fun _ _ _ _ => rfl)

/-- C6: if the external feature extractor meets its shape contract (one
embedding row per patch of the preprocessed tensor), then for every batch the
flattened Embedding Table and Soft Label Table built by the per-image loop
have identical length, equal to the cumulative patch count over the accepted
images. -/
theorem C6_tables_aligned (image_size patch_size : ℕ)
    (resize : RGBImage → ℕ → ℕ → (ℕ → ℕ → ℕ → ℚ))
    (extract : Tensor4 → List (List ℚ))
    (tfResize : MaskImage → ℕ → ℕ → (ℕ → ℕ → ℚ))
    (hextract : ∀ img : InputImage,
        (extract (preprocess_image image_size patch_size resize img.toRGB)).length =
          numPatches image_size patch_size img) :
    ∀ imgs : List InputImage,
      ((aligner image_size patch_size resize extract tfResize imgs).1.flatten).length =
        cumPatches image_size patch_size imgs ∧
      ((aligner image_size patch_size resize extract tfResize imgs).2.flatten).length =
        cumPatches image_size patch_size imgs := by
  intro imgs
  induction imgs with
  | nil => exact ⟨rfl, rfl⟩
  | cons img rest ih =>
    by_cases h : img.mode = "RGBA"
    · simp [aligner, h, cumPatches, List.filter_cons, image_feats, hextract img,
        image_soft_labels_length, ih.1, ih.2]
    · simp [aligner, h, cumPatches, List.filter_cons, ih.1, ih.2]

/-- C6 witness: on a concrete one-image batch, with an extractor meeting the
shape contract, the Embedding Table length equals the cumulative patch
count. -/
theorem C6_witness :
    ((aligner 1 1 zeroResize shapeExtract stepMaskResize [img2]).1.flatten).length =
      cumPatches 1 1 [img2] :=
  (C6_tables_aligned 1 1 zeroResize shapeExtract stepMaskResize
    (by
      intro img
      simp [shapeExtract, preprocess_image, numPatches, InputImage.toRGB]) [img2]).1

/-- C7: `preprocess_image` returns a tensor of shape
`[1, 3, rows*P, cols*P]` (channel-first, leading batch dimension 1) whose
value at channel `c`, pixel `(y, x)` is `(p/255 - mean_c) / std_c` for the
resized pixel `p`, with the IMAGENET mean `(0.485, 0.456, 0.406)` and standard
deviation `(0.229, 0.224, 0.225)`. -/
theorem C7_preprocess_normalization (image_size patch_size : ℕ)
    (resize : RGBImage → ℕ → ℕ → (ℕ → ℕ → ℕ → ℚ)) (img : RGBImage) :
    (preprocess_image image_size patch_size resize img).dim0 = 1 ∧
    (preprocess_image image_size patch_size resize img).dim1 = 3 ∧
    (preprocess_image image_size patch_size resize img).dim2 =
      (preprocess_grid image_size patch_size img.width img.height).1 * patch_size ∧
    (preprocess_image image_size patch_size resize img).dim3 =
      (preprocess_grid image_size patch_size img.width img.height).2 * patch_size ∧
    (∀ b c y x : ℕ,
        (preprocess_image image_size patch_size resize img).val b c y x =
          ((resize img
              ((preprocess_grid image_size patch_size img.width img.height).2 * patch_size)
              ((preprocess_grid image_size patch_size img.width img.height).1 * patch_size))
              y x c / 255
            - IMAGENET_MEAN c) / IMAGENET_STD c) ∧
    (IMAGENET_MEAN 0, IMAGENET_MEAN 1, IMAGENET_MEAN 2) = (0.485, 0.456, 0.406) ∧
    (IMAGENET_STD 0, IMAGENET_STD 1, IMAGENET_STD 2) = (0.229, 0.224, 0.225) := by
  exact ⟨rfl, rfl, rfl, rfl, fun b c y x => rfl, rfl, rfl⟩

/-- C8: a non-RGBA image anywhere in the batch is skipped silently — the
per-image loop and the whole op produce exactly the same result as on the
batch with that image removed; no error is raised. -/
theorem C8_non_rgba_skipped (image_size patch_size : ℕ)
    (resize : RGBImage → ℕ → ℕ → (ℕ → ℕ → ℕ → ℚ))
    (extract : Tensor4 → List (List ℚ))
    (tfResize : MaskImage → ℕ → ℕ → (ℕ → ℕ → ℚ))
    (pre post : List InputImage) (bad : InputImage) (hbad : bad.mode ≠ "RGBA") :
    aligner image_size patch_size resize extract tfResize (pre ++ bad :: post) =
      aligner image_size patch_size resize extract tfResize (pre ++ post) ∧
    train_classifier_op_run resize extract tfResize (pre ++ bad :: post) =
      train_classifier_op_run resize extract tfResize (pre ++ post) := by
  have halign : ∀ S P : ℕ,
      aligner S P resize extract tfResize (pre ++ bad :: post) =
        aligner S P resize extract tfResize (pre ++ post) := by
    intro S P
    induction pre with
    | nil => simp [aligner, hbad]
    | cons a pre ih =>
      by_cases h : a.mode = "RGBA"
      · simp [aligner, h, ih]
      · simp [aligner, h, ih]
  have hcore : ∀ S P : ℕ,
      train_classifier_core S P resize extract tfResize (pre ++ bad :: post) =
        train_classifier_core S P resize extract tfResize (pre ++ post) := by
    intro S P
    unfold train_classifier_core run_clean
    rw [halign S P]
  refine ⟨halign image_size patch_size, ?_⟩
  unfold train_classifier_op_run
  rw [hcore IMAGE_SIZE PATCH_SIZE]

/-- C8 witness: a concrete batch containing only a non-RGBA image runs
exactly like the empty batch. -/
theorem C8_witness :
    train_classifier_op_run zeroResize zeroExtract zeroMaskResize [badImg] =
      train_classifier_op_run zeroResize zeroExtract zeroMaskResize [] :=
  (C8_non_rgba_skipped 1 1 zeroResize zeroExtract zeroMaskResize [] [] badImg
    (by simp [badImg])).2

/-- C9: whenever the op body succeeds, the exported graph declares exactly one
input, named `patch_features`, of floating-point shape `[None, feature_dim]`
(dynamic first dimension), with `feature_dim` taken from the clean feature
table, the `zipmap` option disabled (flat tensor output), and target
opset 17. -/
theorem C9_export_interface (image_size patch_size : ℕ)
    (resize : RGBImage → ℕ → ℕ → (ℕ → ℕ → ℕ → ℚ))
    (extract : Tensor4 → List (List ℚ))
    (tfResize : MaskImage → ℕ → ℕ → (ℕ → ℕ → ℚ))
    (imgs : List InputImage) (m : OnnxModel)
    (hok : train_classifier_core image_size patch_size resize extract tfResize imgs =
      Except.ok m) :
    m.inputs.length = 1 ∧
    m.inputs = [{ name := "patch_features", elemType := "float",
                  dims := [none, some m.feature_dim] }] ∧
    m.feature_dim =
      ((run_clean image_size patch_size resize extract tfResize imgs).1.headD []).length ∧
    m.zipmap = false ∧
    m.opset = 17 := by
  unfold train_classifier_core at hok
  split_ifs at hok <;> cases hok <;> simp

/-- C9 witness: a concrete successful run exports with zipmap disabled and
opset 17. -/
theorem C9_witness : demoModel.zipmap = false ∧ demoModel.opset = 17 := by
  have hok : train_classifier_core 1 1 zeroResize shapeExtract stepMaskResize [img2] =
      Except.ok demoModel := by
    have halign : aligner 1 1 zeroResize shapeExtract stepMaskResize [img2] =
        ([[[5], [5]]], [[0, 1]]) := by
      norm_num [aligner, image_feats, image_soft_labels, patch_quant, resize_mask,
        resize_mask_grid, preprocess_image, preprocess_grid, pyIntDiv, pyInt,
        shapeExtract, stepMaskResize, zeroResize, img2, InputImage.toRGB,
        InputImage.alphaMask, List.replicate, Finset.sum_range_one, Int.toNat_ofNat,
        List.range_succ, show Int.toNat 2 = 2 from rfl]
    have hclean : run_clean 1 1 zeroResize shapeExtract stepMaskResize [img2] =
        ([[5], [5]], [0, 1]) := by
      unfold run_clean
      rw [halign]
      norm_num [mask_select, clean_pred]
    unfold train_classifier_core
    rw [halign, hclean]
    norm_num [binarize, List.dedup, demoModel]
  have h := C9_export_interface 1 1 zeroResize shapeExtract stepMaskResize [img2]
    demoModel hok
  exact ⟨h.2.2.2.1, h.2.2.2.2⟩

/-- C10: the op sets the record to `training`, then on any error of the body
it sets the record to `failed` and re-raises the same exception unchanged,
while the single `ready` update (with the artifact upload) happens exactly
when the body, including the export, succeeded — a failed run never ends
`ready`. -/
theorem C10_status_protocol
    (resize : RGBImage → ℕ → ℕ → (ℕ → ℕ → ℕ → ℚ))
    (extract : Tensor4 → List (List ℚ))
    (tfResize : MaskImage → ℕ → ℕ → (ℕ → ℕ → ℚ)) (imgs : List InputImage) :
    (∀ e, train_classifier_core IMAGE_SIZE PATCH_SIZE resize extract tfResize imgs =
        Except.error e →
        train_classifier_op_run resize extract tfResize imgs =
          ([PBUpdate.setTraining, PBUpdate.setFailed], Except.error e)) ∧
    (∀ m, train_classifier_core IMAGE_SIZE PATCH_SIZE resize extract tfResize imgs =
        Except.ok m →
        train_classifier_op_run resize extract tfResize imgs =
          ([PBUpdate.setTraining, PBUpdate.setReady m], Except.ok m)) ∧
    (∀ m, PBUpdate.setReady m ∈ (train_classifier_op_run resize extract tfResize imgs).1 →
        train_classifier_core IMAGE_SIZE PATCH_SIZE resize extract tfResize imgs =
          Except.ok m ∧
        (train_classifier_op_run resize extract tfResize imgs).2 = Except.ok m) := by
  refine ⟨?_, ?_, ?_⟩
  · intro e he
    unfold train_classifier_op_run train_classifier_op
    rw [he]
  · intro m hm
    unfold train_classifier_op_run train_classifier_op
    rw [hm]
  · intro m hmem
    unfold train_classifier_op_run train_classifier_op at hmem ⊢
    cases hcore : train_classifier_core IMAGE_SIZE PATCH_SIZE resize extract tfResize imgs with
    | ok m' =>
      rw [hcore] at hmem
      simp at hmem
      subst hmem
      exact ⟨rfl, rfl⟩
    | error e =>
      rw [hcore] at hmem
      simp at hmem

/-- C10 witness: a concrete failing run ends with the `failed` update and
re-raises the body's error. -/
theorem C10_witness :
    train_classifier_op_run zeroResize zeroExtract zeroMaskResize [] =
      ([PBUpdate.setTraining, PBUpdate.setFailed],
       Except.error TrainError.valueErrorConcatEmpty) :=
  (C10_status_protocol zeroResize zeroExtract zeroMaskResize []).1
    TrainError.valueErrorConcatEmpty rfl
